import Mathlib

/-!
Verification of the Scheme-like interpreter in `src/main.py`.

The interpreter core (tokenizer, recursive-descent parser, frame chain,
closures, evaluator, variadic arithmetic builtins) is shallowly embedded
below.  Python ints are modelled as `Int`; Python floats are modelled as
tagged exact fractions compared numerically by cross-multiplication, the
way Python's `==` compares numbers (every float arising in the statements
proved here is exactly representable, so rounding is never observable and
exact fractions are a faithful model of the values involved).  Python dicts
are modelled as association lists with in-place overwrite; the mutable
frame graph is modelled as a store (list of frames) with frames referred
to by index.  Host-language faults that escape the interpreter's own
`SchemeError` hierarchy (IndexError, TypeError, ValueError,
ZeroDivisionError) are modelled as distinct error constructors, as is the
host recursion limit (the source raises it to 20000; recursion depth is
modelled by an explicit fuel parameter, consumed only by nesting, so any
sufficiently large fuel computes the same result).
-/

namespace Scheme

/-- An exact fraction: numerator and (nonzero by construction)
denominator, not necessarily reduced; two fractions denote the same
number exactly when cross-multiplication agrees. -/
structure Frac where
  num : Int
  den : Int
deriving DecidableEq

/-- Runtime numbers: Python `int` or `float` (float as exact fraction). -/
inductive Num where
  | int : Int → Num
  | float : Frac → Num
deriving DecidableEq

/-- Parsed expressions, as produced by `parse` in src/main.py: numbers,
symbols (Python strings), and S-expressions (Python lists). -/
inductive Expr where
  | num : Num → Expr
  | sym : String → Expr
  | comb : List Expr → Expr

/-- Names of the four builtin operations registered in `scheme_builtins`. -/
inductive BName where
  | add | sub | mul | div
deriving DecidableEq

/-- Runtime values: numbers, user functions (the `Functions` class:
params expression, body expression, defining frame index), builtins. -/
inductive Value where
  | num : Num → Value
  | functions : Expr → Expr → Nat → Value
  | builtin : BName → Value

/-- Errors: the interpreter's own `SchemeError` subclasses, plus the host
(Python) faults that the source code can let escape, plus the host
recursion limit. -/
inductive Err where
  | schemeSyntaxError
  | schemeNameError
  | schemeEvaluationError
  | hostIndexError
  | hostTypeError
  | hostValueError
  | hostZeroDivisionError
  | recursionLimit
deriving DecidableEq

/-- Membership in the interpreter's own `SchemeError` hierarchy. -/
def isSchemeError : Err → Bool
  | .schemeSyntaxError => true
  | .schemeNameError => true
  | .schemeEvaluationError => true
  | _ => false

/-- One `Frame` object from src/main.py: a dict of bindings plus an
optional parent.  Dict keys are modelled as `Expr` because `define` can
bind non-string keys (the code never validates them). -/
structure Frame where
  bindings : List (Expr × Value)
  parent : Option Nat

/-- The heap of frame objects; frames are referred to by index. -/
abbrev Store := List Frame

/-- The fraction denoted by a runtime number. -/
def fracOf : Num → Frac
  | .int n => ⟨n, 1⟩
  | .float f => f

/-- Python numeric equality between runtime numbers (`==` compares ints
and floats by exact value): cross-multiplication of the fractions. -/
def pyNumEq (a b : Num) : Bool :=
  (fracOf a).num * (fracOf b).den = (fracOf b).num * (fracOf a).den

/-- Python `==` between the values that can be dict keys here: strings
compare as strings, numbers compare numerically (so `1` and `1.0` are the
same key); lists never reach a dict because they are unhashable. -/
def pyKeyEq : Expr → Expr → Bool
  | .sym a, .sym b => a = b
  | .num a, .num b => pyNumEq a b
  | _, _ => false

/-- Python `first == "define"`-style comparison of a tree node against a
string literal: true exactly when the node is that string. -/
def isStr (e : Expr) (t : String) : Bool :=
  match e with
  | .sym s => s = t
  | _ => false

/-- Python dict lookup on the association-list model. -/
def dictGet : List (Expr × Value) → Expr → Option Value
  | [], _ => none
  | (k, v) :: rest, key => if pyKeyEq k key then some v else dictGet rest key

/-- Python dict assignment `d[key] = v`: overwrite in place (keeping the
originally inserted key object, as Python does), else append. -/
def dictSet : List (Expr × Value) → Expr → Value → List (Expr × Value)
  | [], key, v => [(key, v)]
  | (k, w) :: rest, key, v =>
      if pyKeyEq k key then (k, v) :: rest else (k, w) :: dictSet rest key v

/-- Python hashability of the keys that can reach a dict assignment here:
lists are unhashable (TypeError), numbers and strings are hashable. -/
def hashableKey : Expr → Bool
  | .comb _ => false
  | _ => true

/-- Method `Frame.define` of src/main.py, lifted to the store:
`self.bindings[name] = value` on the frame at index `fid`. -/
def storeDefine (s : Store) (fid : Nat) (key : Expr) (v : Value) :
    Except Err Store :=
  if hashableKey key then
    match s[fid]? with
    | some fr => .ok (s.set fid ⟨dictSet fr.bindings key v, fr.parent⟩)
    | none => .error .hostIndexError
  else .error .hostTypeError

/-- Method `Frame.lookup` of src/main.py: check own bindings, else recurse
into the parent, else raise `SchemeNameError`.  The fuel bounds the chain
walk (callers pass more fuel than any acyclic chain can use). -/
def frameLookup (s : Store) : Nat → Nat → String → Except Err Value
  | 0, _, _ => .error .recursionLimit
  | fuel+1, fid, name =>
    match s[fid]? with
    | none => .error .hostIndexError
    | some fr =>
      match dictGet fr.bindings (.sym name) with
      | some v => .ok v
      | none =>
        match fr.parent with
        | some p => frameLookup s fuel p name
        | none => .error .schemeNameError

/-! ## Tokenization and atom classification -/

/-- The nested `add_token` helper of `tokenize`: flush a non-empty pending
atom buffer. -/
def flushToken (cur : String) (rest : List String) : List String :=
  if cur = ("") then rest else cur :: rest

/-- The character loop of `tokenize` in src/main.py.  `inComment` models
being inside the `while ... != "\n"` comment-skipping loop, which stops at
(without consuming) the newline. -/
def tokenizeAux : List Char → String → Bool → List String
  | [], cur, _ => flushToken cur []
  | c :: cs, cur, inComment =>
    if inComment then
      if c = '\n' then flushToken cur (tokenizeAux cs ("") false)
      else tokenizeAux cs cur true
    else if c = ';' then tokenizeAux cs cur true
    else if c = '(' ∨ c = ')' then
      flushToken cur (String.singleton c :: tokenizeAux cs ("") false)
    else if c = ' ' ∨ c = '\n' then flushToken cur (tokenizeAux cs ("") false)
    else tokenizeAux cs (cur.push c) false

/-- Function `tokenize` of src/main.py. -/
def tokenize (source : String) : List String :=
  tokenizeAux source.data ("") false

/-- Decimal value of a digit list. -/
def digitsVal (cs : List Char) : Nat :=
  cs.foldl (fun a c => a * 10 + (c.toNat - 48)) 0

/-- A non-empty all-digit character list. -/
def decDigits (cs : List Char) : Bool :=
  !cs.isEmpty && cs.all Char.isDigit

/-- Models the host `int(value)` parse on the lexeme shapes the tokenizer
can produce: an optional sign followed by decimal digits.  (Exotic host
forms — underscores, surrounding whitespace — never arise here.) -/
def pyIntParse (s : String) : Option Int :=
  match s.data with
  | '-' :: rest => if decDigits rest then some (-(digitsVal rest : Int)) else none
  | '+' :: rest => if decDigits rest then some (digitsVal rest : Int) else none
  | cs => if decDigits cs then some (digitsVal cs : Int) else none

/-- Unsigned core of the host `float(value)` parse: digits with an
optional single point, at least one digit in total. -/
def pyFloatCore (cs : List Char) : Option Frac :=
  let ip := cs.takeWhile Char.isDigit
  match cs.dropWhile Char.isDigit with
  | [] => if ip.isEmpty then none else some ⟨digitsVal ip, 1⟩
  | '.' :: fp =>
      if fp.all Char.isDigit && (!ip.isEmpty || !fp.isEmpty) then
        some ⟨(digitsVal ip : Int) * (10 ^ fp.length : Nat) + digitsVal fp,
              ((10 ^ fp.length : Nat) : Int)⟩
      else none
  | _ => none

/-- Models the host `float(value)` parse (exponent and inf/nan forms never
arise in the statements proved here). -/
def pyFloatParse (s : String) : Option Frac :=
  match s.data with
  | '-' :: rest => (pyFloatCore rest).map (fun f => ⟨-f.num, f.den⟩)
  | '+' :: rest => pyFloatCore rest
  | cs => pyFloatCore cs

/-- Function `number_or_symbol` of src/main.py: try `int`, then `float`,
else keep the string as a symbol. -/
def number_or_symbol (s : String) : Expr :=
  match pyIntParse s with
  | some n => .num (.int n)
  | none =>
    match pyFloatParse s with
    | some q => .num (.float q)
    | none => .sym s

/-! ## Parsing -/

/-- The `while` loop inside `parse_expression` collecting sub-expressions
until a `)` token; `pe` is the surrounding `parse_expression`.  Running
past the end of the tokens raises `SchemeSyntaxError`; reaching a `)`
returns the collected list and the index of the `)`. -/
def parseListF (tokens : List String) (pe : Nat → Except Err (Expr × Nat)) :
    Nat → Nat → List Expr → Except Err (List Expr × Nat)
  | 0, _, _ => .error .recursionLimit
  | fuel+1, index, acc =>
    match tokens[index]? with
    | none => .error .schemeSyntaxError
    | some t =>
      if t = (")") then .ok (acc, index)
      else
        match pe index with
        | .error e => .error e
        | .ok (sub, index2) =>
          if index2 ≥ tokens.length then .error .schemeSyntaxError
          else parseListF tokens pe fuel index2 (acc ++ [sub])

/-- The nested `parse_expression` helper of `parse` in src/main.py.
`tokens[index]` on an out-of-range index is the host IndexError. -/
def parse_expression (tokens : List String) : Nat → Nat → Except Err (Expr × Nat)
  | 0, _ => .error .recursionLimit
  | fuel+1, index =>
    match tokens[index]? with
    | none => .error .hostIndexError
    | some token =>
      if token = ("(") then
        match parseListF tokens (parse_expression tokens fuel)
            (tokens.length + 1) (index + 1) [] with
        | .ok (subs, i) => .ok (.comb subs, i + 1)
        | .error e => .error e
      else if token = (")") then .error .schemeSyntaxError
      else .ok (number_or_symbol token, index + 1)

/-- Function `parse` of src/main.py: parse one expression from index 0 and
reject leftover tokens.  The fuel bound exceeds any possible nesting. -/
def parse (tokens : List String) : Except Err Expr :=
  match parse_expression tokens (tokens.length + 1) 0 with
  | .error e => .error e
  | .ok (result, nextIndex) =>
    if nextIndex ≠ tokens.length then .error .schemeSyntaxError
    else .ok result

/-! ## Builtin arithmetic -/

/-- Python `+` on two numbers: int stays int, any float makes a float. -/
def pyAddNum : Num → Num → Num
  | .int a, .int b => .int (a + b)
  | a, b =>
    .float ⟨(fracOf a).num * (fracOf b).den + (fracOf b).num * (fracOf a).den,
            (fracOf a).den * (fracOf b).den⟩

/-- Python `-` on two numbers. -/
def pySubNum : Num → Num → Num
  | .int a, .int b => .int (a - b)
  | a, b =>
    .float ⟨(fracOf a).num * (fracOf b).den - (fracOf b).num * (fracOf a).den,
            (fracOf a).den * (fracOf b).den⟩

/-- Python `*` on two numbers. -/
def pyMulNum : Num → Num → Num
  | .int a, .int b => .int (a * b)
  | a, b => .float ⟨(fracOf a).num * (fracOf b).num,
                    (fracOf a).den * (fracOf b).den⟩

/-- Python binary `+` on runtime values: non-numbers raise TypeError. -/
def pyAdd : Value → Value → Except Err Value
  | .num a, .num b => .ok (.num (pyAddNum a b))
  | _, _ => .error .hostTypeError

/-- Python binary `-` on runtime values. -/
def pySub : Value → Value → Except Err Value
  | .num a, .num b => .ok (.num (pySubNum a b))
  | _, _ => .error .hostTypeError

/-- Python binary `*` on runtime values. -/
def pyMul : Value → Value → Except Err Value
  | .num a, .num b => .ok (.num (pyMulNum a b))
  | _, _ => .error .hostTypeError

/-- Python unary minus on a runtime value. -/
def pyNeg : Value → Except Err Value
  | .num (.int a) => .ok (.num (.int (-a)))
  | .num (.float f) => .ok (.num (.float ⟨-f.num, f.den⟩))
  | _ => .error .hostTypeError

/-- Python true division `a / b`: always float-valued on numbers, raising
ZeroDivisionError on a zero divisor, TypeError on non-numbers. -/
def pyDiv : Value → Value → Except Err Value
  | .num a, .num b =>
      if (fracOf b).num = 0 then .error .hostZeroDivisionError
      else .ok (.num (.float ⟨(fracOf a).num * (fracOf b).den,
                              (fracOf a).den * (fracOf b).num⟩))
  | _, _ => .error .hostTypeError

/-- The host builtin `sum`: left fold of `+` starting from the int 0. -/
def pySum (args : List Value) : Except Err Value :=
  args.foldlM pyAdd (.num (.int 0))

/-- The `-` entry of `scheme_builtins`:
`-args[0] if len(args) == 1 else (args[0] - sum(args[1:]))`.
With zero arguments, `args[0]` is the host IndexError. -/
def subBuiltin : List Value → Except Err Value
  | [a] => pyNeg a
  | [] => .error .hostIndexError
  | a :: rest =>
    match pySum rest with
    | .ok t => pySub a t
    | .error e => .error e

/-- The `*` entry of `scheme_builtins`:
`1 if not args else args[0] * mul(args[1:])` (a right fold). -/
def mulBuiltin : List Value → Except Err Value
  | [] => .ok (.num (.int 1))
  | a :: rest =>
    match mulBuiltin rest with
    | .ok m => pyMul a m
    | .error e => .error e

/-- Function `divide` of src/main.py: 1 on no arguments, otherwise the
left fold `result /= arg` over the remaining arguments. -/
def divide (args : List Value) : Except Err Value :=
  match args with
  | [] => .ok (.num (.int 1))
  | a :: rest => rest.foldlM pyDiv a

/-- Dispatch a builtin by name on already-evaluated arguments. -/
def applyBuiltin : BName → List Value → Except Err Value
  | .add, args => pySum args
  | .sub, args => subBuiltin args
  | .mul, args => mulBuiltin args
  | .div, args => divide args

/-- The `scheme_builtins` dict of src/main.py, as a lookup by name. -/
def scheme_builtins (name : String) : Option Value :=
  if name = ("+") then some (.builtin .add)
  else if name = ("-") then some (.builtin .sub)
  else if name = ("*") then some (.builtin .mul)
  else if name = ("/") then some (.builtin .div)
  else none

/-- The `builtins_frame` of src/main.py: a parentless frame whose bindings
are the contents of `scheme_builtins`. -/
def builtins_frame : Frame :=
  ⟨[(.sym ("+"), .builtin .add), (.sym ("-"), .builtin .sub),
    (.sym ("*"), .builtin .mul), (.sym ("/"), .builtin .div)], none⟩

/-! ## Evaluation -/

/-- Python `len(func.params)`: list length, or string character count (a
string iterates per character), or TypeError on a number. -/
def pyLen : Expr → Except Err Nat
  | .comb l => .ok l.length
  | .sym st => .ok st.length
  | .num _ => .error .hostTypeError

/-- The keys yielded by iterating `func.params` in `zip(func.params, args)`:
the elements of a list, or the one-character strings of a string. -/
def paramKeys : Expr → List Expr
  | .comb l => l
  | .sym st => st.data.map (fun c => .sym (String.singleton c))
  | .num _ => []

/-- The loop `for param, arg in zip(...): new_frame.define(param, arg)`. -/
def defineAll : Store → Nat → List (Expr × Value) → Except Err Store
  | s, _, [] => .ok s
  | s, fid, (k, v) :: rest =>
    match storeDefine s fid k v with
    | .ok s1 => defineAll s1 fid rest
    | .error e => .error e

/-- Evaluate a list of argument expressions left to right (the list
comprehension `[evaluate(arg, frame) for arg in rest]`), threading the
store; `ev` is the evaluator for the sub-expressions. -/
def evalArgsF (ev : Expr → Nat → Store → Except Err (Value × Store)) :
    List Expr → Nat → Store → Except Err (List Value × Store)
  | [], _, s => .ok ([], s)
  | e :: es, frame, s =>
    match ev e frame s with
    | .error er => .error er
    | .ok (v, s1) =>
      match evalArgsF ev es frame s1 with
      | .error er => .error er
      | .ok (vs, s2) => .ok (v :: vs, s2)

/-- One step of `evaluate` from src/main.py, with `ev` standing for the
recursive calls (each of which is one level deeper on the host stack):
numbers are self-evaluating; symbols consult `scheme_builtins` first and
only then the frame chain; the empty combination raises
`SchemeEvaluationError`; `define`/`lambda` unpack their list into exactly
three parts (a mismatch is the host ValueError from tuple unpacking);
applying a `Functions` value checks arity then binds the parameters in a
new frame whose parent is the defining frame and evaluates the body
there; applying a builtin calls it on the evaluated arguments; anything
else is not callable and raises `SchemeEvaluationError`. -/
def evalStep (ev : Expr → Nat → Store → Except Err (Value × Store)) :
    Expr → Nat → Store → Except Err (Value × Store)
  | .num n, _, s => .ok (.num n, s)
  | .sym name, frame, s =>
    match scheme_builtins name with
    | some v => .ok (v, s)
    | none =>
      match frameLookup s (s.length + 1) frame name with
      | .ok v => .ok (v, s)
      | .error e => .error e
  | .comb [], _, _ => .error .schemeEvaluationError
  | .comb (first :: rest), frame, s =>
    if isStr first ("define") then
      match rest with
      | [nameOrSig, expr] =>
        match nameOrSig with
        | .comb [] => .error .hostValueError
        | .comb (func :: params) =>
          match ev (.comb [.sym ("lambda"), .comb params, expr]) frame s with
          | .error e => .error e
          | .ok (value, s1) =>
            match storeDefine s1 frame func value with
            | .ok s2 => .ok (value, s2)
            | .error e => .error e
        | _ =>
          match ev expr frame s with
          | .error e => .error e
          | .ok (value, s1) =>
            match storeDefine s1 frame nameOrSig value with
            | .ok s2 => .ok (value, s2)
            | .error e => .error e
      | _ => .error .hostValueError
    else if isStr first ("lambda") then
      match rest with
      | [params, body] => .ok (.functions params body frame, s)
      | _ => .error .hostValueError
    else
      match ev first frame s with
      | .error e => .error e
      | .ok (func, s1) =>
        match evalArgsF ev rest frame s1 with
        | .error e => .error e
        | .ok (args, s2) =>
          match func with
          | .functions params body df =>
            match pyLen params with
            | .error e => .error e
            | .ok plen =>
              if args.length ≠ plen then .error .schemeEvaluationError
              else
                match defineAll (s2 ++ [⟨[], some df⟩]) s2.length
                    ((paramKeys params).zip args) with
                | .ok s4 => ev body s2.length s4
                | .error e => .error e
          | .builtin b =>
            match applyBuiltin b args with
            | .ok v => .ok (v, s2)
            | .error e => .error e
          | .num _ => .error .schemeEvaluationError

/-- Function `evaluate` of src/main.py, with fuel modelling the host
recursion limit; larger fuel never changes a result that is not
`recursionLimit`. -/
def evaluate : Nat → Expr → Nat → Store → Except Err (Value × Store)
  | 0, _, _, _ => .error .recursionLimit
  | fuel+1, tree, frame, s => evalStep (evaluate fuel) tree frame s

/-- The store at the start of a top-level `evaluate(tree)` call with no
frame passed: the builtins frame (index 0) and a fresh empty frame
(index 1) whose parent is the builtins frame. -/
def initialStore : Store := [builtins_frame, ⟨[], some 0⟩]

/-- A top-level `evaluate(tree)` call from src/main.py (frame omitted). -/
def evaluateTop (fuel : Nat) (tree : Expr) : Except Err (Value × Store) :=
  evaluate fuel tree 1 initialStore

/-- The full `evaluate(parse(tokenize(source)))` pipeline. -/
def pipeline (fuel : Nat) (source : String) : Except Err Value :=
  match parse (tokenize source) with
  | .error e => .error e
  | .ok tree =>
    match evaluateTop fuel tree with
    | .ok (v, _) => .ok v
    | .error e => .error e

/-! ## Shared lemmas -/

/-- Unfolding one level of fuel. -/
theorem evaluate_succ (fuel : Nat) (tree : Expr) (frame : Nat) (s : Store) :
    evaluate (fuel+1) tree frame s = evalStep (evaluate fuel) tree frame s := rfl

/-- Unfolding the evaluator on an application whose operator evaluates to
a `Functions` value: the arity test, then the fresh frame with the
defining frame as parent, the parameter bindings, and the body. -/
theorem evalStep_app (ev : Expr → Nat → Store → Except Err (Value × Store))
    (first : Expr) (rest : List Expr) (frame : Nat) (s s1 s2 : Store)
    (params body : Expr) (df : Nat) (args : List Value) (n : Nat)
    (h1 : isStr first ("define") = false) (h2 : isStr first ("lambda") = false)
    (hf : ev first frame s = .ok (.functions params body df, s1))
    (ha : evalArgsF ev rest frame s1 = .ok (args, s2))
    (hn : pyLen params = .ok n) :
    evalStep ev (.comb (first :: rest)) frame s =
      if args.length = n then
        match defineAll (s2 ++ [⟨[], some df⟩]) s2.length
            ((paramKeys params).zip args) with
        | .ok s4 => ev body s2.length s4
        | .error e => .error e
      else .error .schemeEvaluationError := by
  simp only [evalStep, h1, h2, hf, ha, hn, Bool.false_eq_true, if_false]
  by_cases h : args.length = n <;> simp [h]

/-- A `pyKeyEq` match against a string key pins the stored key. -/
theorem pyKeyEq_sym_iff (k : Expr) (name : String) :
    pyKeyEq k (.sym name) = true ↔ k = .sym name := by
  cases k with
  | sym a => simp [pyKeyEq]
  | num a => simp [pyKeyEq]
  | comb l => simp [pyKeyEq]

/-- Writing a string key then reading it back yields the written value. -/
theorem dictGet_dictSet_self (bs : List (Expr × Value)) (name : String) (v : Value) :
    dictGet (dictSet bs (.sym name) v) (.sym name) = some v := by
  induction bs with
  | nil => simp [dictSet, dictGet, pyKeyEq]
  | cons kv rest ih =>
    obtain ⟨k, w⟩ := kv
    cases h : pyKeyEq k (.sym name) with
    | true => simp [dictSet, h, dictGet]
    | false => simp [dictSet, h, dictGet, ih]

/-- Writing a string key leaves every other key's lookup unchanged. -/
theorem dictGet_dictSet_other (bs : List (Expr × Value)) (name : String)
    (v : Value) (q : Expr) (hq : pyKeyEq (.sym name) q = false) :
    dictGet (dictSet bs (.sym name) v) q = dictGet bs q := by
  induction bs with
  | nil => simp [dictSet, dictGet, hq]
  | cons kv rest ih =>
    obtain ⟨k, w⟩ := kv
    cases h : pyKeyEq k (.sym name) with
    | true =>
      have hk : k = .sym name := (pyKeyEq_sym_iff k name).1 h
      subst hk
      simp [dictSet, h, dictGet, hq]
    | false => simp [dictSet, h, dictGet, ih]

/-- Repeating the same write is the identity on the dict. -/
theorem dictSet_idem (bs : List (Expr × Value)) (name : String) (v : Value) :
    dictSet (dictSet bs (.sym name) v) (.sym name) v = dictSet bs (.sym name) v := by
  induction bs with
  | nil => simp [dictSet, pyKeyEq]
  | cons kv rest ih =>
    obtain ⟨k, w⟩ := kv
    cases h : pyKeyEq k (.sym name) with
    | true => simp [dictSet, h]
    | false => simp [dictSet, h, ih]

/-- A successful `pyDiv` always produces a float-tagged number. -/
theorem pyDiv_ok_float (a b v : Value) (h : pyDiv a b = .ok v) :
    ∃ f, v = .num (.float f) := by
  cases a <;> cases b <;> simp [pyDiv] at h
  case num.num na nb =>
    split at h
    · cases h
    · exact ⟨_, (Except.ok.inj h).symm⟩

/-- A successful nonempty left fold of `pyDiv` produces a float. -/
theorem foldlM_pyDiv_float (l : List Value) :
    ∀ acc v, l ≠ [] → List.foldlM pyDiv acc l = .ok v →
      ∃ f, v = .num (.float f) := by
  induction l with
  | nil => intro acc v h; exact absurd rfl h
  | cons x xs ih =>
    intro acc v _ hfold
    rw [List.foldlM_cons] at hfold
    cases hx : pyDiv acc x with
    | error e => rw [hx] at hfold; cases hfold
    | ok acc2 =>
      rw [hx] at hfold
      by_cases hxs : xs = []
      · subst hxs
        have hv : acc2 = v := Except.ok.inj hfold
        exact hv ▸ pyDiv_ok_float acc x acc2 hx
      · exact ih acc2 v hxs hfold

/-! ## Claims -/

/-- C1: whenever the operator of an application evaluates to a `Functions`
value (a closure) and the arguments evaluate successfully with matching
arity, evaluation proceeds by appending a new frame whose parent is the
closure's captured defining frame `df` (never the caller's frame `frame`),
binding each parameter name to the corresponding evaluated argument in
that new frame, and evaluating the body in that new frame — so free
variables in the body resolve against the defining environment. -/
theorem closure_call_uses_defining_frame
    (fuel : Nat) (first : Expr) (rest : List Expr) (frame : Nat)
    (s s1 s2 : Store) (params body : Expr) (df : Nat) (args : List Value) (n : Nat)
    (h1 : isStr first ("define") = false) (h2 : isStr first ("lambda") = false)
    (hf : evaluate fuel first frame s = .ok (.functions params body df, s1))
    (ha : evalArgsF (evaluate fuel) rest frame s1 = .ok (args, s2))
    (hn : pyLen params = .ok n) (heq : args.length = n) :
    evaluate (fuel+1) (.comb (first :: rest)) frame s =
      match defineAll (s2 ++ [⟨[], some df⟩]) s2.length
          ((paramKeys params).zip args) with
      | .ok s4 => evaluate fuel body s2.length s4
      | .error e => .error e := by
  rw [evaluate_succ,
    evalStep_app (evaluate fuel) first rest frame s s1 s2 params body df args n
      h1 h2 hf ha hn]
  simp [heq]

/-- Witness for C1: applying `(lambda (x) x)` to `5` in the top-level
frame appends a frame parented at the lambda's defining frame (index 1)
and evaluates the body there. -/
theorem closure_call_uses_defining_frame_witness :
    evaluate 4 (.comb [.comb [.sym ("lambda"), .comb [.sym ("x")], .sym ("x")],
        .num (.int 5)]) 1 initialStore =
      match defineAll (initialStore ++ [⟨[], some 1⟩]) 2
          ((paramKeys (.comb [.sym ("x")])).zip [.num (.int 5)]) with
      | .ok s4 => evaluate 3 (.sym ("x")) 2 s4
      | .error e => .error e :=
  closure_call_uses_defining_frame 3
    (.comb [.sym ("lambda"), .comb [.sym ("x")], .sym ("x")]) [.num (.int 5)]
    1 initialStore initialStore initialStore (.comb [.sym ("x")]) (.sym ("x"))
    1 [.num (.int 5)] 1 rfl rfl rfl rfl rfl rfl

/-- C2: a symbol that names a builtin operator evaluates to the builtin
registry's entry in any frame and any store whatsoever — the frame chain
is never consulted, so a prior `(define + ...)` in any frame cannot
change what the symbol evaluates to. -/
theorem builtin_symbol_bypasses_frames (fuel frame : Nat) (s : Store)
    (name : String) (v : Value) (h : scheme_builtins name = some v) :
    evaluate (fuel+1) (.sym name) frame s = .ok (v, s) := by
  rw [evaluate_succ]
  simp only [evalStep, h]

/-- Witness for C2: even in a store whose top-level frame binds `+` to the
number 99, the symbol `+` still evaluates to the registry's builtin. -/
theorem builtin_symbol_bypasses_frames_witness :
    scheme_builtins ("+") = some (.builtin .add) ∧
    evaluate 1 (.sym ("+")) 1
        [builtins_frame, ⟨[(.sym ("+"), .num (.int 99))], some 0⟩] =
      .ok (.builtin .add,
        [builtins_frame, ⟨[(.sym ("+"), .num (.int 99))], some 0⟩]) :=
  ⟨rfl, builtin_symbol_bypasses_frames 0 1
    [builtins_frame, ⟨[(.sym ("+"), .num (.int 99))], some 0⟩]
    ("+") (.builtin .add) rfl⟩

/-- C3: the builtin `/` returns 1 on zero arguments, returns its single
argument unchanged on one argument, and on two or more arguments is the
left fold dividing the first argument by each subsequent one in order;
the full pipeline on `(/ 10 2 5)` yields a number that Python-equals 1
(the float value 10/10), and `(/ )` yields 1. -/
theorem divide_fold_and_example :
    divide [] = .ok (.num (.int 1)) ∧
    (∀ a, divide [a] = .ok a) ∧
    (∀ a b rest, divide (a :: b :: rest) = List.foldlM pyDiv a (b :: rest)) ∧
    pipeline 20 ("(/ 10 2 5)") = .ok (.num (.float ⟨10, 10⟩)) ∧
    pyNumEq (.float ⟨10, 10⟩) (.int 1) = true ∧
    pipeline 20 ("(/ )") = .ok (.num (.int 1)) :=
  ⟨rfl, fun _ => rfl, fun _ _ _ => rfl, rfl, rfl, rfl⟩

/-- Witness for C3: the one-argument clause applied to the number 7. -/
theorem divide_fold_and_example_witness :
    divide [Value.num (.int 7)] = .ok (Value.num (.int 7)) :=
  divide_fold_and_example.2.1 (Value.num (.int 7))

/-- C4 counterexample: on the empty token sequence, `parse` raises the
host IndexError (from `tokens[0]`), not the interpreter's
`SchemeSyntaxError` as the claim states. -/
theorem parse_empty_not_scheme_syntax :
    parse [] = .error .hostIndexError ∧
    parse [] ≠ .error .schemeSyntaxError := by
  refine ⟨rfl, ?_⟩
  rw [show parse [] = Except.error Err.hostIndexError from rfl]
  simp

/-- C4 (amended): on the empty token sequence `parse` fails with the host
IndexError (outside the interpreter's taxonomy); leftover tokens after
one complete top-level expression and unmatched parentheses fail with
`SchemeSyntaxError`. -/
theorem parse_malformed_errors :
    parse [] = .error .hostIndexError ∧
    isSchemeError .hostIndexError = false ∧
    (∀ tokens e i, parse_expression tokens (tokens.length + 1) 0 = .ok (e, i) →
      i ≠ tokens.length → parse tokens = .error .schemeSyntaxError) ∧
    parse [("(")] = .error .schemeSyntaxError ∧
    parse [(")")] = .error .schemeSyntaxError := by
  refine ⟨rfl, rfl, ?_, rfl, rfl⟩
  intro tokens e i hpe hne
  simp [parse, hpe, hne]

/-- Witness for C4's amended claim: two top-level atoms leave a token
unconsumed, so `parse` rejects them with `SchemeSyntaxError`. -/
theorem parse_malformed_errors_witness :
    parse_expression [("1"), ("2")] 3 0 = .ok (.num (.int 1), 1) ∧
    parse [("1"), ("2")] = .error .schemeSyntaxError :=
  ⟨rfl, parse_malformed_errors.2.2.1 [("1"), ("2")] (.num (.int 1)) 1 rfl
    (by decide)⟩

/-- C5 counterexample: `(define x)` fails with the host ValueError
(tuple-unpacking fault), not the interpreter's `SchemeEvaluationError` as
the claim states. -/
theorem define_missing_part_not_eval_error :
    evaluateTop 5 (.comb [.sym ("define"), .sym ("x")]) = .error .hostValueError ∧
    evaluateTop 5 (.comb [.sym ("define"), .sym ("x")]) ≠
      .error .schemeEvaluationError := by
  refine ⟨rfl, ?_⟩
  rw [show evaluateTop 5 (.comb [.sym ("define"), .sym ("x")]) =
    Except.error Err.hostValueError from rfl]
  simp

/-- C5 (amended): a `define` or `lambda` combination with a missing or
extra part (any number of parts other than exactly two after the keyword,
or an empty signature list) fails with the host ValueError from tuple
unpacking, which lies outside the interpreter's `SchemeError` taxonomy —
not with `SchemeEvaluationError`. -/
theorem special_form_unpack_host_fault :
    (∀ fuel frame s (rest : List Expr), rest.length ≠ 2 →
      evaluate (fuel+1) (.comb (.sym ("define") :: rest)) frame s =
        .error .hostValueError) ∧
    (∀ fuel frame s (rest : List Expr), rest.length ≠ 2 →
      evaluate (fuel+1) (.comb (.sym ("lambda") :: rest)) frame s =
        .error .hostValueError) ∧
    (∀ fuel frame s e, evaluate (fuel+1)
        (.comb [.sym ("define"), .comb [], e]) frame s =
      .error .hostValueError) ∧
    isSchemeError .hostValueError = false := by
  refine ⟨?_, ?_, fun _ _ _ _ => rfl, rfl⟩ <;>
  · intro fuel frame s rest h
    rcases rest with _ | ⟨a, _ | ⟨b, _ | ⟨c, t⟩⟩⟩
    · rfl
    · rfl
    · exact absurd rfl h
    · rfl

/-- Witness for C5's amended claim: `(define x)` (one part after the
keyword) fails with the host ValueError. -/
theorem special_form_unpack_host_fault_witness :
    ([Expr.sym ("x")].length ≠ 2) ∧
    evaluate 1 (.comb [.sym ("define"), .sym ("x")]) 1 initialStore =
      .error .hostValueError :=
  ⟨by decide, special_form_unpack_host_fault.1 0 1 initialStore
    [.sym ("x")] (by decide)⟩

/-- C6: applying a closure with an argument count different from its
parameter count fails with `SchemeEvaluationError`; with equal counts no
arity error is raised — evaluation proceeds to bind the parameters and
evaluate the body. -/
theorem closure_arity_enforcement
    (fuel : Nat) (first : Expr) (rest : List Expr) (frame : Nat)
    (s s1 s2 : Store) (params body : Expr) (df : Nat) (args : List Value) (n : Nat)
    (h1 : isStr first ("define") = false) (h2 : isStr first ("lambda") = false)
    (hf : evaluate fuel first frame s = .ok (.functions params body df, s1))
    (ha : evalArgsF (evaluate fuel) rest frame s1 = .ok (args, s2))
    (hn : pyLen params = .ok n) :
    (args.length ≠ n →
      evaluate (fuel+1) (.comb (first :: rest)) frame s =
        .error .schemeEvaluationError) ∧
    (args.length = n →
      evaluate (fuel+1) (.comb (first :: rest)) frame s =
        match defineAll (s2 ++ [⟨[], some df⟩]) s2.length
            ((paramKeys params).zip args) with
        | .ok s4 => evaluate fuel body s2.length s4
        | .error e => .error e) := by
  constructor <;> intro h <;>
    rw [evaluate_succ,
      evalStep_app (evaluate fuel) first rest frame s s1 s2 params body df args n
        h1 h2 hf ha hn] <;>
    simp [h]

/-- Witness for C6: applying the one-parameter `(lambda (x) x)` to two
arguments fails with `SchemeEvaluationError`. -/
theorem closure_arity_enforcement_witness :
    evaluate 4 (.comb [.comb [.sym ("lambda"), .comb [.sym ("x")], .sym ("x")],
        .num (.int 4), .num (.int 5)]) 1 initialStore =
      .error .schemeEvaluationError :=
  (closure_arity_enforcement 3
    (.comb [.sym ("lambda"), .comb [.sym ("x")], .sym ("x")])
    [.num (.int 4), .num (.int 5)] 1 initialStore initialStore initialStore
    (.comb [.sym ("x")]) (.sym ("x")) 1 [.num (.int 4), .num (.int 5)] 1
    rfl rfl rfl rfl rfl).1 (by decide)

/-- C7: evaluating the empty combination `()` fails with
`SchemeEvaluationError`, and evaluating a combination whose first element
evaluates to a number (not a closure and not a builtin) also fails with
`SchemeEvaluationError` (not callable). -/
theorem empty_or_noncallable_eval_error :
    (∀ fuel frame s, evaluate (fuel+1) (.comb []) frame s =
      .error .schemeEvaluationError) ∧
    (∀ fuel (first : Expr) (rest : List Expr) frame (s s1 s2 : Store)
      (m : Num) (args : List Value),
      isStr first ("define") = false → isStr first ("lambda") = false →
      evaluate fuel first frame s = .ok (.num m, s1) →
      evalArgsF (evaluate fuel) rest frame s1 = .ok (args, s2) →
      evaluate (fuel+1) (.comb (first :: rest)) frame s =
        .error .schemeEvaluationError) := by
  refine ⟨fun _ _ _ => rfl, ?_⟩
  intro fuel first rest frame s s1 s2 m args h1 h2 hf ha
  rw [evaluate_succ]
  simp only [evalStep, h1, h2, hf, ha, Bool.false_eq_true, if_false]

/-- Witness for C7: `()` fails, and `(1 2)` — whose operator evaluates to
the number 1 — fails as not callable. -/
theorem empty_or_noncallable_eval_error_witness :
    evaluate 1 (.comb []) 1 initialStore = .error .schemeEvaluationError ∧
    evaluate 2 (.comb [.num (.int 1), .num (.int 2)]) 1 initialStore =
      .error .schemeEvaluationError :=
  ⟨empty_or_noncallable_eval_error.1 0 1 initialStore,
   empty_or_noncallable_eval_error.2 1 (.num (.int 1)) [.num (.int 2)] 1
     initialStore initialStore initialStore (.int 1) [.num (.int 2)]
     rfl rfl rfl rfl⟩

/-- C8: `define` on a frame inserts or overwrites the binding in that
frame's own mapping only: reading the name back yields the value (last
write wins), every other key's lookup in that frame is unchanged, every
other frame of the store (in particular every ancestor) is unchanged, the
frame's parent link is unchanged, and repeating the same define is
idempotent. -/
theorem frame_define_local_only (s : Store) (fid : Nat) (fr : Frame)
    (hf : s[fid]? = some fr) (name : String) (v : Value) :
    storeDefine s fid (.sym name) v =
      .ok (s.set fid ⟨dictSet fr.bindings (.sym name) v, fr.parent⟩) ∧
    dictGet (dictSet fr.bindings (.sym name) v) (.sym name) = some v ∧
    (∀ q, pyKeyEq (.sym name) q = false →
      dictGet (dictSet fr.bindings (.sym name) v) q = dictGet fr.bindings q) ∧
    (∀ g, g ≠ fid →
      (s.set fid ⟨dictSet fr.bindings (.sym name) v, fr.parent⟩)[g]? = s[g]?) ∧
    storeDefine (s.set fid ⟨dictSet fr.bindings (.sym name) v, fr.parent⟩)
        fid (.sym name) v =
      .ok (s.set fid ⟨dictSet fr.bindings (.sym name) v, fr.parent⟩) := by
  have hlt : fid < s.length := (List.getElem?_eq_some.mp hf).1
  refine ⟨by simp [storeDefine, hashableKey, hf],
    dictGet_dictSet_self fr.bindings name v,
    fun q hq => dictGet_dictSet_other fr.bindings name v q hq,
    fun g hg => List.getElem?_set_ne (Ne.symm hg), ?_⟩
  have h2 : (s.set fid ⟨dictSet fr.bindings (.sym name) v, fr.parent⟩)[fid]? =
      some ⟨dictSet fr.bindings (.sym name) v, fr.parent⟩ :=
    List.getElem?_set_self (by simpa using hlt)
  simp [storeDefine, hashableKey, h2, dictSet_idem, List.set_set]

/-- Witness for C8: defining `x` in the fresh top-level frame of the
initial store. -/
theorem frame_define_local_only_witness :
    storeDefine initialStore 1 (.sym ("x")) (.num (.int 5)) =
      .ok (initialStore.set 1
        ⟨dictSet [] (.sym ("x")) (.num (.int 5)), some 0⟩) :=
  (frame_define_local_only initialStore 1 ⟨[], some 0⟩ rfl ("x")
    (.num (.int 5))).1

/-- C9: the builtin `-` applied to an empty argument list evaluates
`args[0]`, raising the host IndexError, which lies outside the
interpreter's `SchemeError` taxonomy. -/
theorem minus_no_args_index_fault :
    subBuiltin [] = .error .hostIndexError ∧
    evaluateTop 2 (.comb [.sym ("-")]) = .error .hostIndexError ∧
    isSchemeError .hostIndexError = false :=
  ⟨rfl, rfl, rfl⟩

/-- C10: the builtin `/` on two or more arguments uses the host's true
division, so every successful result is float-tagged even when all
arguments are integers and every division is exact; in particular the
pipeline on `(/ 10 2 5)` produces a float that Python-equals 1 — not an
integer. -/
theorem divide_two_or_more_returns_float :
    (∀ a b rest v, divide (a :: b :: rest) = .ok v →
      ∃ f, v = .num (.float f)) ∧
    pipeline 20 ("(/ 10 2 5)") = .ok (.num (.float ⟨10, 10⟩)) ∧
    pyNumEq (.float ⟨10, 10⟩) (.int 1) = true ∧
    (∀ n : Int, Value.num (.float ⟨10, 10⟩) ≠ .num (.int n)) := by
  refine ⟨?_, rfl, rfl, ?_⟩
  · intro a b rest v h
    exact foldlM_pyDiv_float (b :: rest) a v (by simp) h
  · intro n h
    simp at h

/-- Witness for C10: dividing 10 by 2 then by 5 succeeds and the result
carries the float tag. -/
theorem divide_two_or_more_returns_float_witness :
    divide [Value.num (.int 10), .num (.int 2), .num (.int 5)] =
      .ok (.num (.float ⟨10, 10⟩)) ∧
    ∃ f, (Value.num (.float ⟨10, 10⟩)) = .num (.float f) :=
  ⟨rfl, divide_two_or_more_returns_float.1 (.num (.int 10)) (.num (.int 2))
    [.num (.int 5)] (.num (.float ⟨10, 10⟩)) rfl⟩

end Scheme
